import Mathlib

/-!
Shallow embedding of the Engine.IO client (`src/engineio/client.py`) for
checking the natural-language specification against the code.

The embedding models the pure control logic of the client: packet and
session data, the `connect` validation phase, the polling handshake checks
of `_connect_polling`, the URL builder `_get_engineio_url`, the upgrade
probe of `_connect_websocket`, the receive dispatch `_receive_packet`, the
send path `send` / `_send_packet`, one iteration of `_writer_task`
(batch collection, acknowledgement counting, and dispatch), and the ping
task `_ping_task` together with traces of prober cycles interleaved with
PONG receipts.

External collaborators (the HTTP library, the WebSocket library, the wire
codec) are modelled by their observable results: an HTTP response is a
status plus an already-decoded payload (`none` standing for a body the
codec rejects), a received WebSocket frame is an already-decoded packet.
The outbound queue is a list of `Option Packet`, with `none` standing for
the Python sentinel `None`, written `⊥` in the spec.
-/

namespace Engineio

/-- Packet types, ordinals 0..6 as in `packet.py`. -/
inductive PacketType where
  | OPEN | CLOSE | PING | PONG | MESSAGE | UPGRADE | NOOP
deriving DecidableEq, Repr

/-- Packet payload: absent, text, binary bytes, or a decoded OPEN
descriptor carrying sid, upgrades and the two durations (milliseconds,
as on the wire). -/
inductive PacketData where
  | text (s : String)
  | binary (b : List Nat)
  | openData (sid : String) (upgrades : List String)
      (pingIntervalMs : Nat) (pingTimeoutMs : Nat)
deriving DecidableEq, Repr

/-- A decoded packet: a type and an optional data field. -/
structure Packet where
  packet_type : PacketType
  data : Option PacketData := none
deriving DecidableEq, Repr

/-- Session lifecycle state: the string field `self.state`. -/
inductive SessionState where
  | disconnected | connected | disconnecting
deriving DecidableEq, Repr

/-- The two transports. -/
inductive Transport where
  | polling | websocket
deriving DecidableEq, Repr

/-- The string name of a transport, as used in URLs and in `self.transports`. -/
def Transport.name : Transport → String
  | .polling => "polling"
  | .websocket => "websocket"

/-- The mutable fields of `Client` that the verified logic touches.
The outbound queue is the list of items currently in `self.queue`
(`none` is the Python `None` sentinel); `ws_held` is whether `self.ws`
is set; `ws_open` is whether that socket is still open. -/
structure Client where
  state : SessionState := .disconnected
  current_transport : Option Transport := none
  sid : Option String := none
  upgrades : List String := []
  transports : List String := []
  pong_received : Bool := true
  queue : List (Option Packet) := []
  ws_held : Bool := false
  ws_open : Bool := false
deriving DecidableEq, Repr

/-- The flag the spec calls `pong_pending`: the code stores its negation in
`self.pong_received`. -/
def pong_pending (c : Client) : Bool := !c.pong_received

/-! ## connect: validation phase (client.py lines 144-157) -/

/-- Errors surfaced by `connect` and its transport helpers.  Both
`alreadyConnected` and `noValidTransports` are `ValueError` in the code;
the rest are `exceptions.ConnectionError` except `indexError`, which is
the uncaught `IndexError` raised by `open_packet[0]` on an empty list. -/
inductive ConnectErr where
  | alreadyConnected
  | noValidTransports
  | connectionRefused
  | unexpectedStatus (status : Nat)
  | malformedResponse
  | noOpenPacket
  | indexError
deriving DecidableEq, Repr

/-- The list `valid_transports` from `connect`. -/
def valid_transports : List String := ["polling", "websocket"]

/-- The validation phase of `Client.connect`: the state check, the
filtering of the supplied transport list, and the assignment of
`self.transports`.  `transports = none` models the default argument.
Returns the (possibly updated) client and the error raised, if any;
on an error the client is returned exactly as it was. -/
def connect (c : Client) (transports : Option (List String)) :
    Client × Option ConnectErr :=
  if c.state ≠ .disconnected then
    (c, some .alreadyConnected)
  else
    match transports with
    | some ts =>
      let ts := ts.filter (fun t => t ∈ valid_transports)
      if ts = [] then (c, some .noValidTransports)
      else ({ c with transports := ts, queue := [] }, none)
    | none => ({ c with transports := valid_transports, queue := [] }, none)

/-! ## Polling handshake checks (client.py lines 252-273) -/

/-- An HTTP response as the handshake observes it: the status code and
the payload decode result (`none` when `payload.Payload` raises
`ValueError` on the body). -/
structure Response where
  status : Nat
  payload : Option (List Packet)
deriving DecidableEq, Repr

/-- The Python test `open_packet is None`: `open_packet` is built by a
list comprehension, so it is a list and never `None`. -/
def isNoneCheck (_l : List Packet) : Bool := false

/-- The error checks of `_connect_polling`, from the GET result to the
selection of the OPEN packet.  `resp = none` models a `None` return from
`_send_request` (connection refused).  Faithful to the source: the
`open_packet is None` guard never fires, and indexing the empty filtered
list raises `IndexError`. -/
def _connect_polling (resp : Option Response) : Except ConnectErr Packet :=
  match resp with
  | none => .error .connectionRefused
  | some r =>
    if r.status ≠ 200 then .error (.unexpectedStatus r.status)
    else
      match r.payload with
      | none => .error .malformedResponse
      | some pkts =>
        let open_packet := pkts.filter (fun p => p.packet_type == .OPEN)
        if isNoneCheck open_packet then .error .noOpenPacket
        else
          match open_packet with
          | [] => .error .indexError
          | p :: _ => .ok p

/-- A concrete MESSAGE packet, used as input material. -/
def msgHi : Packet := { packet_type := .MESSAGE, data := some (.text "hi") }

/-- A concrete OPEN packet with a handshake descriptor. -/
def openAbc : Packet :=
  { packet_type := .OPEN, data := some (.openData "abc" [] 25000 5000) }

/-! ## URL construction (client.py lines 471-488) -/

/-- The fields of `urllib.parse.urlparse(url)` the builder reads. -/
structure ParsedUrl where
  scheme : String
  netloc : String
  query : String
deriving DecidableEq, Repr

/-- Python `s.strip('/')`: remove every leading and trailing `'/'`. -/
def stripSlashes (s : String) : String :=
  String.mk (((s.toList.dropWhile (fun ch => ch = '/')).reverse.dropWhile
    (fun ch => ch = '/')).reverse)

/-- Embedding of `_get_engineio_url`: build the Engine.IO connection URL from the
parsed input URL, the endpoint path, and the transport. -/
def _get_engineio_url (parsed : ParsedUrl) (engineio_path : String)
    (transport : Transport) : String :=
  let path := stripSlashes engineio_path
  let scheme :=
    match transport with
    | .polling => "http"
    | .websocket => "ws"
  let scheme :=
    if parsed.scheme = "https" ∨ parsed.scheme = "wss" then scheme ++ "s"
    else scheme
  let sep := if parsed.query ≠ "" then "&" else ""
  scheme ++ "://" ++ parsed.netloc ++ "/" ++ path ++ "/?" ++ parsed.query ++
    sep ++ "transport=" ++ transport.name ++ "&EIO=3"

/-! ## Send path (client.py lines 168-180, 436-444) -/

/-- Embedding of `_send_packet`: enqueue a packet unless the session is not
connected, in which case do nothing. -/
def _send_packet (c : Client) (pkt : Packet) : Client :=
  if c.state ≠ .connected then c
  else { c with queue := c.queue ++ [some pkt] }

/-- Embedding of `send`: wrap the data in a MESSAGE packet and enqueue it. -/
def send (c : Client) (data : PacketData) : Client :=
  _send_packet c { packet_type := .MESSAGE, data := some data }

/-! ## Upgrade probe (client.py lines 357-366) -/

/-- The upgrade branch of `_connect_websocket` after the PING `probe`
was sent, applied to the single frame received in reply.  Returns the
updated client, the boolean the function returns, and the packets sent
on the WebSocket by this branch. -/
def upgradeProbe (c : Client) (frame : Packet) :
    Client × Bool × List Packet :=
  if frame.packet_type ≠ .PONG ∨ frame.data ≠ some (.text "probe") then
    (c, false, [])
  else
    ({ c with current_transport := some .websocket }, true,
      [{ packet_type := .UPGRADE }])

/-! ## Receive dispatch (client.py lines 419-434, 459-469) -/

/-- Observable effects of dispatching one inbound packet. -/
inductive RecvOut where
  | messageCallback (d : Option PacketData)
  | handlerErrorLogged
  | unexpectedLogged (t : PacketType)
deriving DecidableEq, Repr

/-- The synchronous path of `_trigger_event` for the `message` event:
invoke the registered handler, catching and logging any exception it
raises.  The handler is external code, modelled by its outcome on the
data it is given (`Except.error` standing for a raised exception);
`none` models an unregistered handler. -/
def _trigger_event (handler : Option (Option PacketData → Except Unit Unit))
    (d : Option PacketData) : List RecvOut :=
  match handler with
  | none => []
  | some h =>
    match h d with
    | .ok _ => [.messageCallback d]
    | .error _ => [.messageCallback d, .handlerErrorLogged]

/-- Embedding of `_receive_packet`: dispatch one decoded inbound packet.  Returns
the updated client and the observable effects. -/
def _receive_packet
    (handler : Option (Option PacketData → Except Unit Unit))
    (c : Client) (pkt : Packet) : Client × List RecvOut :=
  if pkt.packet_type = .MESSAGE then
    (c, _trigger_event handler pkt.data)
  else if pkt.packet_type = .PONG then
    ({ c with pong_received := true }, [])
  else if pkt.packet_type = .NOOP then
    (c, [])
  else
    (c, [.unexpectedLogged pkt.packet_type])

/-! ## Writer task: batch collection (client.py lines 517-538) -/

/-- The opportunistic drain loop of `_writer_task`: starting from the
batch `acc`, repeatedly take items from the queue without blocking.
An empty queue ends the loop; a sentinel is taken, stripped from the
batch (`packets = packets[:-1]`), acknowledged with `task_done`, and
ends the loop.  Returns the batch, the number of `task_done` calls made
while collecting, and the remaining queue. -/
def drain (acc : List Packet) :
    List (Option Packet) → List Packet × Nat × List (Option Packet)
  | [] => (acc, 0, [])
  | none :: rest => (acc, 1, rest)
  | some p :: rest => drain (acc ++ [p]) rest

/-- Result of one iteration of the `_writer_task` loop body, up to and
including the `if not packets: break` check. -/
inductive WriterStep where
  | queueEmptyError
  | terminate (acks : Nat) (remaining : List (Option Packet))
  | dispatch (batch : List Packet) (acks : Nat)
      (remaining : List (Option Packet))
deriving DecidableEq, Repr

/-- One iteration of `_writer_task` up to dispatch: the blocking take
with timeout `ping_timeout` (an empty queue models the timeout
elapsing, on which the code raises `exceptions.QueueEmpty`), the
sentinel check on the first item, the drain loop, and the empty-batch
termination check. -/
def writerIteration (q : List (Option Packet)) : WriterStep :=
  match q with
  | [] => .queueEmptyError
  | first :: rest =>
    let step : List Packet × Nat × List (Option Packet) :=
      match first with
      | none => ([], 1, rest)
      | some p => drain [p] rest
    match step with
    | (packets, acks, remaining) =>
      if packets = [] then .terminate acks remaining
      else .dispatch packets acks remaining

/-- Result of dispatching one non-empty batch (client.py lines
539-564): the packets transmitted, the number of `task_done`
acknowledgements issued during dispatch, and whether the iteration hit
a fatal transport error (reset and break). -/
structure DispatchResult where
  sent : List Packet
  acks : Nat
  fatal : Bool
deriving DecidableEq, Repr

/-- The dispatch phase of `_writer_task`.  On polling, the batch is
encoded as one Payload and POSTed (`respOk` models a 200 response with
a live connection); the code issues no `task_done` call in this branch.
On websocket each packet is sent as one frame followed by a `task_done`
call (`wsOk` models the socket staying open throughout). -/
def dispatchBatch (transport : Transport) (ok : Bool)
    (batch : List Packet) : DispatchResult :=
  match transport with
  | .polling =>
    if ok then { sent := batch, acks := 0, fatal := false }
    else { sent := [], acks := 0, fatal := true }
  | .websocket =>
    if ok then { sent := batch, acks := batch.length, fatal := false }
    else { sent := [], acks := 0, fatal := true }

/-! ## Ping task (client.py lines 494-511) -/

/-- Observable events of the liveness prober and the PONG path of the reader. -/
inductive ProberOut where
  | pingSent
  | pongReceived
  | livenessLost
deriving DecidableEq, Repr

/-- The initialization line of `_ping_task`:
`self.pong_received = True`. -/
def ping_task_init (c : Client) : Client :=
  { c with pong_received := true }

/-- One pass of the `_ping_task` loop, guard included.  If the state is
no longer connected the loop body does not run.  If no PONG arrived
since the last PING, liveness is lost: close the WebSocket if one is
held, enqueue the `None` sentinel, `_reset()` the state, and leave the
loop.  Otherwise clear `pong_received`, enqueue a PING via
`_send_packet`, and sleep `ping_interval`. -/
def pingCycle (c : Client) : Client × List ProberOut :=
  if c.state ≠ .connected then (c, [])
  else if !c.pong_received then
    ({ c with
        ws_open := if c.ws_held then false else c.ws_open,
        queue := c.queue ++ [none],
        state := .disconnected }, [.livenessLost])
  else
    (_send_packet { c with pong_received := false }
        { packet_type := .PING }, [.pingSent])

/-- Events interleaving prober passes with the receipt by the reader of a
PONG packet (which sets `self.pong_received = True`, see
`_receive_packet`). -/
inductive ProberEvent where
  | cycle
  | recvPong
deriving DecidableEq, Repr

/-- Apply one event to the client. -/
def proberStep (c : Client) : ProberEvent → Client × List ProberOut
  | .cycle => pingCycle c
  | .recvPong => ({ c with pong_received := true }, [.pongReceived])

/-- Run a sequence of events, concatenating the observable outputs. -/
def proberRun (c : Client) : List ProberEvent → Client × List ProberOut
  | [] => (c, [])
  | e :: es =>
    ((proberRun (proberStep c e).1 es).1,
     (proberStep c e).2 ++ (proberRun (proberStep c e).1 es).2)

/-- Discipline of prober outputs: with `b` the current value of
`pong_received`, a PING may appear only when `b` is true, and it resets
`b`; a PONG receipt sets `b`.  Holding this predicate means no PING is
emitted while the PONG for the previous PING is still outstanding. -/
def pingsAcked : Bool → List ProberOut → Prop
  | _, [] => True
  | b, .pingSent :: l => b = true ∧ pingsAcked false l
  | _, .pongReceived :: l => pingsAcked true l
  | b, .livenessLost :: l => pingsAcked b l

/-! ## Theorems -/

/-- Helper for C6: the drain loop consumes a run of packets and stops at
a sentinel, which it acknowledges and drops, leaving the rest queued. -/
theorem drain_somes_sentinel (ps : List Packet) (acc : List Packet)
    (rest : List (Option Packet)) :
    drain acc (ps.map some ++ none :: rest) = (acc ++ ps, 1, rest) := by
  induction ps generalizing acc with
  | nil => simp [drain]
  | cons p ps ih =>
    simp only [List.map_cons, List.cons_append, drain, List.append_eq]
    rw [ih]
    simp

/-- Helper for C6: the drain loop consumes a run of packets and stops
when the queue runs empty, with no acknowledgement. -/
theorem drain_somes (ps : List Packet) (acc : List Packet) :
    drain acc (ps.map some) = (acc ++ ps, 0, []) := by
  induction ps generalizing acc with
  | nil => simp [drain]
  | cons p ps ih =>
    simp only [List.map_cons, drain]
    rw [ih]
    simp

/-- C1: the claim says a 200 response whose decodable payload contains no
OPEN packet makes connect fail with the NoOpenPacket error.  In the code
the filtered list is never `None`, so the NoOpenPacket guard is dead and
`open_packet[0]` raises an uncaught `IndexError` instead.  At the failing
input (status 200, payload decoding to a single MESSAGE packet) the
handshake yields `indexError`, not `noOpenPacket`; with an OPEN packet
present it succeeds. -/
theorem C1_missing_open_packet_raises_index_error :
    _connect_polling (some { status := 200, payload := some [msgHi] })
      = .error .indexError
    ∧ _connect_polling (some { status := 200, payload := some [openAbc] })
      = .ok openAbc
    ∧ isNoneCheck [] = false := by
  refine ⟨rfl, rfl, rfl⟩

/-- C2: the claim says every successfully dispatched dequeued packet is
acknowledged with task-done on both transports.  On the websocket
transport the writer does acknowledge each sent packet, but the polling
branch of `_writer_task` contains no task-done call at all: a successful
POST of the batch issues zero acknowledgements. -/
theorem C2_polling_dispatch_issues_no_acks (batch : List Packet) :
    (dispatchBatch .polling true batch).sent = batch
    ∧ (dispatchBatch .polling true batch).acks = 0
    ∧ (dispatchBatch .websocket true batch).sent = batch
    ∧ (dispatchBatch .websocket true batch).acks = batch.length := by
  refine ⟨rfl, rfl, rfl, rfl⟩

/-- C3: connect fails with AlreadyConnected whenever the state is not
DISCONNECTED, leaving the client exactly as it was; and it fails with
NoValidTransports whenever the supplied transports list filtered against
the valid transports is empty. -/
theorem C3_connect_validation (c : Client)
    (transports : Option (List String)) :
    (c.state ≠ .disconnected →
      connect c transports = (c, some ConnectErr.alreadyConnected))
    ∧ (∀ l, c.state = .disconnected → transports = some l →
        l.filter (fun t => t ∈ valid_transports) = [] →
        connect c transports = (c, some ConnectErr.noValidTransports)) := by
  constructor
  · intro h
    unfold connect
    rw [if_pos h]
  · intro l hs ht hf
    subst ht
    simp [connect, hs, hf]

/-- Witness for C3 at concrete inputs: a connected client and a transport
list with no valid entry. -/
theorem C3_connect_validation_witness :
    connect { state := SessionState.connected } (some ["polling"])
      = ({ state := SessionState.connected }, some ConnectErr.alreadyConnected)
    ∧ connect {} (some ["tcp"]) = ({}, some ConnectErr.noValidTransports) :=
  ⟨(C3_connect_validation { state := SessionState.connected }
      (some ["polling"])).1 (by decide),
   (C3_connect_validation {} (some ["tcp"])).2 ["tcp"] rfl rfl (by decide)⟩

/-- C5: for every parsed input URL, endpoint path and transport, the
constructed connection URL is scheme://netloc/path/?query&transport=τ&EIO=3,
where the scheme is http (polling) or ws (websocket) with an extra s
exactly when the input scheme is https or wss, the path is the endpoint
path with leading and trailing slashes stripped, the input query is kept,
and the ampersand before transport= appears exactly when the query is
non-empty. -/
theorem C5_engineio_url (parsed : ParsedUrl) (engineio_path : String)
    (transport : Transport) :
    _get_engineio_url parsed engineio_path transport =
      (if parsed.scheme = "https" ∨ parsed.scheme = "wss" then
        (match transport with
         | .polling => "https"
         | .websocket => "wss")
      else
        (match transport with
         | .polling => "http"
         | .websocket => "ws"))
      ++ "://" ++ parsed.netloc ++ "/" ++ stripSlashes engineio_path
      ++ "/?" ++ parsed.query
      ++ (if parsed.query = "" then "" else "&")
      ++ "transport=" ++ transport.name ++ "&EIO=3" := by
  rcases transport <;>
    unfold _get_engineio_url <;>
    by_cases h : parsed.scheme = "https" ∨ parsed.scheme = "wss" <;>
    by_cases hq : parsed.query = "" <;>
    simp [h, hq, Transport.name]

/-- C4: during the upgrade probe, any received frame other than a PONG
with data "probe" makes the probe return false with the client
untouched and nothing sent, so state and current transport are exactly
as before; a PONG "probe" frame makes the probe send UPGRADE, set the
current transport to websocket, and return true. -/
theorem C4_upgrade_probe (c : Client) (frame : Packet) :
    (¬(frame.packet_type = .PONG ∧ frame.data = some (.text "probe")) →
      upgradeProbe c frame = (c, false, []))
    ∧ (c.state = .connected → c.current_transport = some .polling →
        ¬(frame.packet_type = .PONG ∧ frame.data = some (.text "probe")) →
        (upgradeProbe c frame).1.state = .connected
        ∧ (upgradeProbe c frame).1.current_transport = some .polling)
    ∧ (frame.packet_type = .PONG → frame.data = some (.text "probe") →
        upgradeProbe c frame =
          ({ c with current_transport := some .websocket }, true,
            [{ packet_type := .UPGRADE }])) := by
  have hfail : ¬(frame.packet_type = .PONG
      ∧ frame.data = some (.text "probe")) →
      upgradeProbe c frame = (c, false, []) := by
    intro h
    unfold upgradeProbe
    rw [if_pos]
    rcases not_and_or.mp h with h' | h'
    · exact Or.inl h'
    · exact Or.inr h'
  refine ⟨hfail, ?_, ?_⟩
  · intro hs htr h
    rw [hfail h, hs, htr]
    exact ⟨rfl, rfl⟩
  · intro ht hd
    unfold upgradeProbe
    rw [if_neg]
    simp [ht, hd]

/-- Witness for C4: a PONG with the wrong data leaves a connected
polling client untouched; a PONG "probe" upgrades it. -/
theorem C4_upgrade_probe_witness :
    upgradeProbe { state := .connected, current_transport := some .polling }
        { packet_type := .PONG, data := some (.text "nope") }
      = ({ state := .connected, current_transport := some .polling },
          false, [])
    ∧ upgradeProbe { state := .connected, current_transport := some .polling }
        { packet_type := .PONG, data := some (.text "probe") }
      = ({ state := .connected, current_transport := some .websocket },
          true, [{ packet_type := .UPGRADE }]) :=
  ⟨(C4_upgrade_probe { state := .connected, current_transport := some .polling }
      { packet_type := .PONG, data := some (.text "nope") }).1 (by decide),
   (C4_upgrade_probe { state := .connected, current_transport := some .polling }
      { packet_type := .PONG, data := some (.text "probe") }).2.2 rfl rfl⟩

/-- C6: in one writer iteration, a sentinel taken first yields an empty
batch, is acknowledged, and the writer terminates; a packet taken first
starts the batch, which is extended by non-blocking takes that stop on
an empty queue (no extra acknowledgement) or on a sentinel (consumed
and acknowledged, not part of the batch), and the non-empty batch is
dispatched. -/
theorem C6_writer_batch_collection (p : Packet) (ps : List Packet)
    (rest : List (Option Packet)) :
    writerIteration (none :: rest) = .terminate 1 rest
    ∧ writerIteration (some p :: (ps.map some ++ none :: rest))
      = .dispatch (p :: ps) 1 rest
    ∧ writerIteration (some p :: ps.map some)
      = .dispatch (p :: ps) 0 [] := by
  refine ⟨rfl, ?_, ?_⟩
  · have h := drain_somes_sentinel ps [p] rest
    simp only [writerIteration, h]
    simp
  · have h := drain_somes ps [p]
    simp only [writerIteration, h]
    simp

/-- C7: if the blocking take on the outbound queue times out with the
queue still empty, the writer iteration signals QueueEmpty; it does not
continue with an empty batch. -/
theorem C7_writer_timeout_raises_queue_empty :
    writerIteration [] = WriterStep.queueEmptyError := rfl

/-- C9: receive dispatch by packet type.  A MESSAGE invokes the
registered message callback with the data of the packet, and a raised
callback exception is caught and logged, the client left untouched in
either case; PONG sets `pong_received` and changes nothing else; NOOP
does nothing; every other type is logged as unexpected with no state
change. -/
theorem C9_receive_dispatch
    (hdl : Option (Option PacketData → Except Unit Unit))
    (c : Client) (pkt : Packet) :
    (∀ hf, pkt.packet_type = .MESSAGE →
      _receive_packet (some hf) c pkt =
        (c, match hf pkt.data with
            | .ok _ => [RecvOut.messageCallback pkt.data]
            | .error _ => [RecvOut.messageCallback pkt.data,
                           RecvOut.handlerErrorLogged]))
    ∧ (pkt.packet_type = .PONG →
        _receive_packet hdl c pkt = ({ c with pong_received := true }, []))
    ∧ (pkt.packet_type = .NOOP → _receive_packet hdl c pkt = (c, []))
    ∧ (pkt.packet_type = .OPEN ∨ pkt.packet_type = .CLOSE
        ∨ pkt.packet_type = .PING ∨ pkt.packet_type = .UPGRADE →
        _receive_packet hdl c pkt =
          (c, [RecvOut.unexpectedLogged pkt.packet_type])) := by
  refine ⟨?_, ?_, ?_, ?_⟩
  · intro hf h
    simp only [_receive_packet, _trigger_event, h]
    simp
  · intro h
    simp [_receive_packet, h]
  · intro h
    simp [_receive_packet, h]
  · intro h
    rcases h with h | h | h | h <;> simp [_receive_packet, h]

/-- Witness for C9 at concrete inputs: a raising handler on a MESSAGE,
then PONG, NOOP, and OPEN packets with no handler registered. -/
theorem C9_receive_dispatch_witness :
    _receive_packet (some (fun _ => .error ())) {} msgHi
      = ({}, [RecvOut.messageCallback (some (.text "hi")),
              RecvOut.handlerErrorLogged])
    ∧ _receive_packet none {} { packet_type := .PONG }
      = ({ pong_received := true }, [])
    ∧ _receive_packet none { pong_received := false } { packet_type := .NOOP }
      = ({ pong_received := false }, [])
    ∧ _receive_packet none {} { packet_type := .OPEN }
      = ({}, [RecvOut.unexpectedLogged .OPEN]) :=
  ⟨(C9_receive_dispatch none {} msgHi).1 (fun _ => .error ()) rfl,
   (C9_receive_dispatch none {} { packet_type := .PONG }).2.1 rfl,
   (C9_receive_dispatch none { pong_received := false }
      { packet_type := .NOOP }).2.2.1 rfl,
   (C9_receive_dispatch none {} { packet_type := .OPEN }).2.2.2
      (Or.inl rfl)⟩

/-- C10: while the session is not CONNECTED, send and the underlying
packet enqueue are silent no-ops: the client is returned unchanged (no
packet enqueued, no field altered) and no error is produced. -/
theorem C10_send_noop_when_not_connected (c : Client) (data : PacketData)
    (pkt : Packet) :
    c.state ≠ .connected → send c data = c ∧ _send_packet c pkt = c := by
  intro h
  refine ⟨?_, ?_⟩
  · unfold send _send_packet
    rw [if_pos h]
  · unfold _send_packet
    rw [if_pos h]

/-- Witness for C10 at a concrete disconnected client. -/
theorem C10_send_noop_witness :
    send {} (.text "hi") = {}
    ∧ _send_packet {} { packet_type := .PING } = ({} : Client) :=
  C10_send_noop_when_not_connected {} (.text "hi")
    { packet_type := .PING } (by decide)

/-- Unfolding of one step of a prober run. -/
theorem proberRun_cons (c : Client) (e : ProberEvent)
    (es : List ProberEvent) :
    proberRun c (e :: es)
      = ((proberRun (proberStep c e).1 es).1,
         (proberStep c e).2 ++ (proberRun (proberStep c e).1 es).2) := rfl

/-- When the session has left the connected state, the prober loop
guard fails and a cycle does nothing. -/
theorem pingCycle_not_connected (c : Client)
    (h : c.state ≠ .connected) : pingCycle c = (c, []) := by
  unfold pingCycle
  rw [if_pos h]

/-- The liveness-lost branch of the prober: close the WebSocket if one
is held, enqueue the sentinel, reset the state. -/
theorem pingCycle_liveness_lost (c : Client)
    (h : c.state = .connected) (hp : c.pong_received = false) :
    pingCycle c =
      ({ c with
          ws_open := if c.ws_held then false else c.ws_open,
          queue := c.queue ++ [none],
          state := .disconnected },
        [.livenessLost]) := by
  unfold pingCycle
  rw [if_neg (by simp [h]), if_pos (by simp [hp])]

/-- The normal branch of the prober: clear `pong_received`, enqueue a
PING. -/
theorem pingCycle_sends_ping (c : Client)
    (h : c.state = .connected) (hp : c.pong_received = true) :
    pingCycle c =
      ({ c with
          pong_received := false,
          queue := c.queue ++ [some { packet_type := .PING }] },
        [.pingSent]) := by
  unfold pingCycle
  rw [if_neg (by simp [h]), if_neg (by simp [hp])]
  unfold _send_packet
  rw [if_neg (by simp [h])]

/-- One event preserves the PING acknowledgement discipline. -/
theorem proberStep_acked (c : Client) (e : ProberEvent)
    (l : List ProberOut)
    (h : pingsAcked (proberStep c e).1.pong_received l) :
    pingsAcked c.pong_received ((proberStep c e).2 ++ l) := by
  cases e with
  | recvPong =>
    simp only [proberStep] at h ⊢
    simpa [pingsAcked] using h
  | cycle =>
    by_cases hc : c.state = SessionState.connected
    · cases hp : c.pong_received with
      | false =>
        simp only [proberStep, pingCycle_liveness_lost c hc hp] at h ⊢
        simp only [List.singleton_append, pingsAcked]
        simpa [hp] using h
      | true =>
        simp only [proberStep, pingCycle_sends_ping c hc hp] at h ⊢
        simp only [List.singleton_append, pingsAcked, hp]
        exact ⟨trivial, by simpa using h⟩
    · simp only [proberStep, pingCycle_not_connected c hc] at h ⊢
      simpa using h

/-- Along any run of prober cycles and PONG receipts, no PING is
emitted while the PONG for the previous PING is still outstanding. -/
theorem proberRun_pingsAcked (evs : List ProberEvent) :
    ∀ c : Client, pingsAcked c.pong_received (proberRun c evs).2 := by
  induction evs with
  | nil =>
    intro c
    simp [proberRun, pingsAcked]
  | cons e es ih =>
    intro c
    rw [proberRun_cons]
    exact proberStep_acked c e _ (ih _)

/-- Dropping a prefix of outputs preserves the discipline for some
flag value. -/
theorem pingsAcked_drop (l₁ : List ProberOut) :
    ∀ (b : Bool) (l' : List ProberOut), pingsAcked b (l₁ ++ l') →
      ∃ b', pingsAcked b' l' := by
  induction l₁ with
  | nil =>
    intro b l' h
    exact ⟨b, h⟩
  | cons x l₁ ih =>
    intro b l' h
    cases x with
    | pingSent => exact ih false l' h.2
    | pongReceived => exact ih true l' h
    | livenessLost => exact ih b l' h

/-- With a PONG outstanding, a PONG receipt must appear before the next
PING. -/
theorem pingsAcked_between (l₂ : List ProberOut) :
    ∀ l₃ : List ProberOut, pingsAcked false (l₂ ++ .pingSent :: l₃) →
      ProberOut.pongReceived ∈ l₂ := by
  induction l₂ with
  | nil =>
    intro l₃ h
    exact absurd h.1 (by simp)
  | cons x l₂ ih =>
    intro l₃ h
    cases x with
    | pingSent => exact absurd h.1 (by simp)
    | pongReceived => exact List.mem_cons_self _ _
    | livenessLost => exact List.mem_cons_of_mem _ (ih l₃ h)

/-- Between two PINGs in the outputs of a prober run, a PONG receipt
occurs. -/
theorem proberRun_ping_separation (c : Client) (evs : List ProberEvent)
    (l₁ l₂ l₃ : List ProberOut)
    (h : (proberRun (ping_task_init c) evs).2
      = l₁ ++ .pingSent :: l₂ ++ .pingSent :: l₃) :
    ProberOut.pongReceived ∈ l₂ := by
  have h0 := proberRun_pingsAcked evs (ping_task_init c)
  rw [h, List.append_assoc] at h0
  obtain ⟨b', hb⟩ := pingsAcked_drop l₁ _ _ h0
  exact pingsAcked_between l₂ l₃ hb.2

/-- C8: the prober initializes with no PONG outstanding; while
CONNECTED, a cycle with a PONG outstanding closes the WebSocket if one
is held, enqueues the sentinel, resets the state to DISCONNECTED (after
which cycles do nothing, the loop having terminated); a cycle with no
PONG outstanding marks one outstanding and enqueues a PING; and in any
run, between two PINGs a PONG receipt occurs. -/
theorem C8_prober_liveness (c : Client) (evs : List ProberEvent)
    (l₁ l₂ l₃ : List ProberOut) :
    pong_pending (ping_task_init c) = false
    ∧ (c.state = .connected → pong_pending c = true →
        pingCycle c =
          ({ c with
              ws_open := if c.ws_held then false else c.ws_open,
              queue := c.queue ++ [none],
              state := .disconnected },
            [.livenessLost]))
    ∧ (c.state ≠ .connected → pingCycle c = (c, []))
    ∧ (c.state = .connected → pong_pending c = false →
        pingCycle c =
          ({ c with
              pong_received := false,
              queue := c.queue ++ [some { packet_type := .PING }] },
            [.pingSent]))
    ∧ ((proberRun (ping_task_init c) evs).2
        = l₁ ++ .pingSent :: l₂ ++ .pingSent :: l₃ →
        ProberOut.pongReceived ∈ l₂) := by
  refine ⟨rfl, ?_, pingCycle_not_connected c, ?_,
    proberRun_ping_separation c evs l₁ l₂ l₃⟩
  · intro h hp
    exact pingCycle_liveness_lost c h (by simpa [pong_pending] using hp)
  · intro h hp
    exact pingCycle_sends_ping c h (by simpa [pong_pending] using hp)

/-- Witness for C8 at concrete clients and a concrete three-event run
(cycle, PONG receipt, cycle) whose outputs are PING, PONG, PING. -/
theorem C8_prober_liveness_witness :
    pong_pending (ping_task_init {}) = false
    ∧ pingCycle
        { state := .connected, pong_received := false,
          ws_held := true, ws_open := true }
      = ({ state := .disconnected, pong_received := false,
           ws_held := true, ws_open := false, queue := [none] },
         [.livenessLost])
    ∧ pingCycle {} = ({}, [])
    ∧ pingCycle { state := .connected }
      = ({ state := .connected, pong_received := false,
           queue := [some { packet_type := .PING }] },
         [.pingSent])
    ∧ ProberOut.pongReceived ∈ [ProberOut.pongReceived] :=
  ⟨(C8_prober_liveness {} [] [] [] []).1,
   (C8_prober_liveness
      { state := .connected, pong_received := false,
        ws_held := true, ws_open := true } [] [] [] []).2.1 rfl rfl,
   (C8_prober_liveness {} [] [] [] []).2.2.1 (by decide),
   (C8_prober_liveness { state := .connected } [] [] [] []).2.2.2.1 rfl rfl,
   (C8_prober_liveness { state := .connected }
      [.cycle, .recvPong, .cycle] [] [.pongReceived] []).2.2.2.2 rfl⟩

end Engineio
